import Mathlib

/-!
# Event repository and user handlers: a shallow embedding

Embeds `internal/repository/event/event_repository_impl.go` (GetByID, GetPaginated,
buildPaginatedQuery) and the error switch of
`internal/delivery/http/handler/user/user_handler_impl.go`.

* Go `int` is a 64-bit two's-complement integer: results of arithmetic are wrapped
  with `wrapInt`.
* A `*gorm.DB` handle is a value `DB`: the table it reads plus the statement built so
  far (WHERE conditions, ORDER BY clauses, OFFSET, LIMIT).  Chain methods return the
  extended handle, finishers (`Count`, `Find`, `First`) evaluate it over the table.
* Go `error` values are heap objects compared by identity; `GoError` carries the
  address of each object, and `errors.New` takes the next free address.
-/

namespace Backend

/-! ## Go runtime -/

/-- Two's-complement wrap of an integer result into the range of a 64-bit Go `int`. -/
def wrapInt (x : Int) : Int := (x + 2 ^ 63) % 2 ^ 64 - 2 ^ 63

/-- The values a 64-bit Go `int` can hold. -/
def isInt (x : Int) : Prop := -(2 ^ 63) ≤ x ∧ x < 2 ^ 63

instance (x : Int) : Decidable (isInt x) := by unfold isInt; infer_instance

/-- Go error values of the standard library: `*errors.errorString` (made by `errors.New`)
and `*fmt.wrapError` (made by `fmt.Errorf` with `%w`).  Both are pointers, so `==` on
two errors is identity of the object; `addr` is the object's address. -/
inductive GoError where
  | errorString (addr : Nat) (text : String)
  | wrapError (addr : Nat) (msg : String) (inner : GoError)
deriving DecidableEq, Repr

/-- Every object of the error chain lives at an address below `heap`. -/
def GoError.allocatedBelow : GoError → Nat → Bool
  | .errorString a _, heap => decide (a < heap)
  | .wrapError a _ inner, heap => decide (a < heap) && inner.allocatedBelow heap

/-- Go `errors.New(text)`: a new `*errorString` at the next free address `heap`. -/
def errors.New (heap : Nat) (text : String) : GoError := .errorString heap text

/-- Go `errors.Is(err, target)` for non-nil `err`: walks the `Unwrap` chain of `err`
comparing each link with `target` by `==`. -/
def errors.Is : GoError → GoError → Bool
  | .errorString a t, target => decide (GoError.errorString a t = target)
  | .wrapError a m inner, target =>
    decide (GoError.wrapError a m inner = target) || errors.Is inner target

/-- Go `strings.ToLower`, on the ASCII range: `A`..`Z` map to `a`..`z`, every other
character is kept. -/
def strings.ToLower (s : String) : String := ⟨s.data.map Char.toLower⟩

/-- Go `http.StatusText` for the codes the handlers use. -/
def http.StatusText (code : Nat) : String :=
  if code = 400 then "Bad Request"
  else if code = 401 then "Unauthorized"
  else if code = 404 then "Not Found"
  else if code = 409 then "Conflict"
  else if code = 500 then "Internal Server Error"
  else ""

/-! ## Data model -/

/-- Modelled from the spec: `entity.Event` (its declaration is not among the sources).
A row of the events table with the columns `buildPaginatedQuery` names: id, name,
description, date (a timestamp whose first ten characters are the date portion), time,
venue_id and created_at. -/
structure Event where
  ID : Nat
  Name : String
  Description : String
  Date : String
  Time : String
  VenueID : Nat
  CreatedAt : Nat
deriving DecidableEq, Repr

/-- Modelled from the spec: `model.EventQueryOptions` (its declaration is not among the
sources).  Fields as `buildPaginatedQuery` and `GetPaginated` use them: optional
(pointer) filters, `int` pagination and string sort parameters.  `SortField` is the Go
field `Sort`, a reserved word here. -/
structure EventQueryOptions where
  ID : Option Nat
  Name : Option String
  Description : Option String
  Date : Option String
  Time : Option String
  VenueID : Option Nat
  Page : Int
  Size : Int
  SortField : String
  Order : String
deriving DecidableEq, Repr

/-- Options with no filter, no pagination and no sort set (the Go zero value). -/
def EventQueryOptions.zero : EventQueryOptions :=
  ⟨none, none, none, none, none, none, 0, 0, "", ""⟩

/-! ## The gorm handle -/

/-- A value bound to the `?` of a condition. -/
inductive Arg where
  | uint (n : Nat)
  | str (s : String)
deriving DecidableEq, Repr

/-- One `Where(sql, arg)` condition. -/
structure Cond where
  sql : String
  arg : Arg
deriving DecidableEq, Repr

/-- A `*gorm.DB`: the events table it reads (`rows`), a failure of the connection if
there is one (`fault`: every finisher then returns it), and the statement built so far. -/
structure DB where
  rows : List Event
  fault : Option GoError
  wheres : List Cond
  orders : List String
  offset : Int
  limit : Option Int
deriving Repr

/-- A new session on a healthy connection over the table `rows`. -/
def DB.session (rows : List Event) : DB := ⟨rows, none, [], [], 0, none⟩

/-- The chain method `db.Model(&entity.Event{})`: selects the events table. -/
def DB.Model (db : DB) : DB := db

/-- The chain method `db.Where(sql, arg)`: AND-composes one more condition. -/
def DB.Where (db : DB) (sql : String) (arg : Arg) : DB :=
  { db with wheres := db.wheres ++ [⟨sql, arg⟩] }

/-- The chain method `db.Order(clause)`: appends one more ORDER BY clause. -/
def DB.Order (db : DB) (clause : String) : DB :=
  { db with orders := db.orders ++ [clause] }

/-- The chain method `db.Offset(n)`. -/
def DB.Offset (db : DB) (n : Int) : DB := { db with offset := n }

/-- The chain method `db.Limit(n)`. -/
def DB.Limit (db : DB) (n : Int) : DB := { db with limit := some n }

/-! ## Evaluation of a statement over the table -/

/-- SQL `LIKE` over characters, the pattern read from the left: `%` matches any run of
characters, `_` any one character, a backslash makes the character after it literal
(`esc` tells that the character before was such a backslash; a pattern ending in a lone
backslash matches nothing), every other character matches itself. -/
def likeFrom : Bool → List Char → List Char → Bool
  | esc, [], t => !esc && t.isEmpty
  | esc, c :: p, t =>
    if esc then
      (match t with
       | [] => false
       | x :: t1 => decide (x = c) && likeFrom false p t1)
    else if c = '%' then t.tails.any (fun s => likeFrom false p s)
    else if c = '_' then
      (match t with
       | [] => false
       | _ :: t1 => likeFrom false p t1)
    else if c = '\\' then likeFrom true p t
    else
      (match t with
       | [] => false
       | x :: t1 => decide (x = c) && likeFrom false p t1)

/-- SQL `text LIKE pattern`. -/
def likeMatch (pattern text : List Char) : Bool := likeFrom false pattern text

/-- SQL `LOWER(value) LIKE LOWER(pattern)`. -/
def lowerLike (value pattern : String) : Bool :=
  likeMatch (strings.ToLower pattern).data (strings.ToLower value).data

/-- SQL `DATE(ts)`: the date portion of a timestamp. -/
def sqlDate (ts : String) : String := ⟨ts.data.take 10⟩

/-- Whether a row satisfies one WHERE condition, for the condition texts
`buildPaginatedQuery` and `GetByID` write. -/
def evalCond (c : Cond) (e : Event) : Bool :=
  match c.arg with
  | .uint n =>
    if c.sql = "id = ?" then decide (e.ID = n)
    else if c.sql = "venue_id = ?" then decide (e.VenueID = n)
    else false
  | .str s =>
    if c.sql = "LOWER(name) LIKE LOWER(?)" then lowerLike e.Name s
    else if c.sql = "LOWER(description) LIKE LOWER(?)" then lowerLike e.Description s
    else if c.sql = "DATE(date) = ?" then decide (sqlDate e.Date = s)
    else if c.sql = "time = ?::time" then decide (e.Time = s)
    else false

/-- The rows of the table that satisfy every WHERE condition of the statement. -/
def DB.matching (db : DB) : List Event :=
  db.rows.filter (fun e => db.wheres.all (fun c => evalCond c e))

/-- Comparison of two rows on a column named in an ORDER BY clause (SQL identifiers are
case-insensitive); an unknown column leaves the order as it is. -/
def columnLE (col : String) (a b : Event) : Bool :=
  let c := strings.ToLower col
  if c = "id" then decide (a.ID ≤ b.ID)
  else if c = "name" then !decide (b.Name < a.Name)
  else if c = "description" then !decide (b.Description < a.Description)
  else if c = "date" then !decide (b.Date < a.Date)
  else if c = "time" then !decide (b.Time < a.Time)
  else if c = "venue_id" then decide (a.VenueID ≤ b.VenueID)
  else if c = "created_at" then decide (a.CreatedAt ≤ b.CreatedAt)
  else true

/-- The order one ORDER BY clause `column [direction]` asks for. -/
def clauseLE (clause : String) (a b : Event) : Bool :=
  match clause.splitOn " " with
  | [col, dir] => if strings.ToLower dir = "desc" then columnLE col b a else columnLE col a b
  | [col] => columnLE col a b
  | _ => true

/-- ORDER BY: the rows sorted by the clauses, the first clause most significant; rows
the clauses do not tell apart keep their table order. -/
def orderRows (clauses : List String) (rows : List Event) : List Event :=
  clauses.foldr (fun c acc => acc.insertionSort (fun a b => clauseLE c a b = true)) rows

/-- The finisher `Count`: the number of matching rows (OFFSET and LIMIT are not yet
set when `GetPaginated` calls it), or the connection's failure. -/
def DB.Count (db : DB) : Except GoError Int :=
  match db.fault with
  | some err => .error err
  | none => .ok (db.matching.length : Int)

/-- The finisher `Find`: the matching rows in ORDER BY order, after OFFSET and LIMIT.
gorm writes `OFFSET` only for an offset above zero and `LIMIT` only for a limit that
is not negative. -/
def DB.Find (db : DB) : Except GoError (List Event) :=
  match db.fault with
  | some err => .error err
  | none =>
    let ordered := (orderRows db.orders db.matching).drop db.offset.toNat
    match db.limit with
    | some n => .ok (if 0 ≤ n then ordered.take n.toNat else ordered)
    | none => .ok ordered

/-- The package-level sentinel `gorm.ErrRecordNotFound`, one object made by
`errors.New` when the program starts. -/
def gorm.ErrRecordNotFound : GoError := .errorString 0 "record not found"

/-- The finisher `First(dest)`: the matching row with the least primary key, or
`gorm.ErrRecordNotFound` when no row matches.  gorm reads the destination record too:
when its primary key is not zero, `id = <that key>` is one more AND condition of the
query. -/
def DB.First (db : DB) (dest : Event) : Except GoError Event :=
  match db.fault with
  | some err => .error err
  | none =>
    match (db.matching.filter
        (fun e => decide (dest.ID = 0) || decide (e.ID = dest.ID))).insertionSort
        (fun a b => a.ID ≤ b.ID) with
    | [] => .error gorm.ErrRecordNotFound
    | e :: _ => .ok e

/-! ## internal/repository/event/event_repository_impl.go -/

/-- Lookup in a Go `map[string]bool` literal: a missing key reads as `false`. -/
def mapLookup (m : List (String × Bool)) (key : String) : Bool :=
  (m.lookup key).getD false

/-- The map `validSortFields` of `buildPaginatedQuery`. -/
def validSortFields : List (String × Bool) :=
  [("ID", true), ("name", true), ("description", true), ("date", true), ("time", true),
   ("venue_id", true), ("created_at", true)]

/-- The map `validOrders` of `buildPaginatedQuery`. -/
def validOrders : List (String × Bool) := [("asc", true), ("desc", true)]

/-- `EventRepositoryImpl.buildPaginatedQuery`: the handle `db` extended by one WHERE
condition for each filter that is set and not the zero value, and by an ORDER BY clause
when `Sort` is not empty. -/
def EventRepositoryImpl.buildPaginatedQuery (db : DB) (opts : EventQueryOptions) : DB :=
  let query := db.Model
  let query :=
    match opts.ID with
    | some id => if id ≠ 0 then query.Where "id = ?" (.uint id) else query
    | none => query
  let query :=
    match opts.Name with
    | some name =>
      if name ≠ "" then query.Where "LOWER(name) LIKE LOWER(?)" (.str ("%" ++ name ++ "%"))
      else query
    | none => query
  let query :=
    match opts.Description with
    | some description =>
      if description ≠ "" then
        query.Where "LOWER(description) LIKE LOWER(?)" (.str ("%" ++ description ++ "%"))
      else query
    | none => query
  let query :=
    match opts.Date with
    | some date => if date ≠ "" then query.Where "DATE(date) = ?" (.str date) else query
    | none => query
  let query :=
    match opts.Time with
    | some time => if time ≠ "" then query.Where "time = ?::time" (.str time) else query
    | none => query
  let query :=
    match opts.VenueID with
    | some venueID => if venueID ≠ 0 then query.Where "venue_id = ?" (.uint venueID) else query
    | none => query
  if opts.SortField ≠ "" then
    let direction := strings.ToLower opts.Order
    if mapLookup validSortFields opts.SortField && mapLookup validOrders direction then
      let orderClause := opts.SortField ++ " " ++ direction
      query.Order orderClause
    else
      query.Order "created_at DESC"
  else
    query

/-- Lines 38 to 43 of `GetPaginated`: the options after the two defaulting
assignments. -/
def EventRepositoryImpl.normalizePaging (opts : EventQueryOptions) : EventQueryOptions :=
  let opts := if opts.Page ≤ 0 then { opts with Page := 1 } else opts
  if opts.Size ≤ 0 then { opts with Size := 10 } else opts

/-- Line 54 of `GetPaginated`: `offset := (opts.Page - 1) * opts.Size` in Go `int`
arithmetic. -/
def EventRepositoryImpl.pageOffset (opts : EventQueryOptions) : Int :=
  wrapInt (wrapInt (opts.Page - 1) * opts.Size)

/-- Line 55 of `GetPaginated`: the statement `query.Offset(offset).Limit(opts.Size)`
that `Find` runs, for options already defaulted. -/
def EventRepositoryImpl.pageQuery (db : DB) (opts : EventQueryOptions) : DB :=
  ((EventRepositoryImpl.buildPaginatedQuery db opts).Offset
    (EventRepositoryImpl.pageOffset opts)).Limit opts.Size

/-- What a call of `GetPaginated` leaves behind: the returned count and error, and the
slice and options its pointer arguments point at afterwards. -/
structure GetPaginatedResult where
  totalCount : Int
  err : Option GoError
  events : List Event
  opts : EventQueryOptions
deriving Repr

/-- `EventRepositoryImpl.GetPaginated`. -/
def EventRepositoryImpl.GetPaginated (db : DB) (events : List Event)
    (opts : EventQueryOptions) : GetPaginatedResult :=
  let opts := EventRepositoryImpl.normalizePaging opts
  let query := EventRepositoryImpl.buildPaginatedQuery db opts
  match query.Count with
  | .error err => ⟨0, some err, events, opts⟩
  | .ok totalCount =>
    match (EventRepositoryImpl.pageQuery db opts).Find with
    | .error err => ⟨0, some err, events, opts⟩
    | .ok found => ⟨totalCount, none, found, opts⟩

/-- `EventRepositoryImpl.GetByID`: the returned error and the record `event` points at
afterwards.  `event` is the destination handed to `First`. -/
def EventRepositoryImpl.GetByID (db : DB) (event : Event) (id : Nat) :
    Option GoError × Event :=
  match (db.Where "id = ?" (.uint id)).First event with
  | .error err =>
    if errors.Is err gorm.ErrRecordNotFound then (some gorm.ErrRecordNotFound, event)
    else (some err, event)
  | .ok found => (none, found)

/-! ## internal/delivery/http/handler/user/user_handler_impl.go -/

/-- What a handler answers: the HTTP status and, for a failure, the error put in the
envelope. -/
structure Reply where
  status : Nat
  err : Option GoError
deriving DecidableEq, Repr

/-- Modelled from the spec: `handler.HandleError` (not among the sources) answers with
the given status and the error in the uniform envelope. -/
def handler.HandleError (status : Nat) (err : GoError) : Reply := ⟨status, some err⟩

/-- `UserHandlerImpl.Register`.  `heap` is the next free address when the handler
starts, `bind` the outcome of `ctx.Bind`, `service` that of `h.User.Register`. -/
def UserHandlerImpl.Register {R : Type} (heap : Nat) (bind : Option GoError)
    (service : Except GoError R) : Reply :=
  match bind with
  | some _ => handler.HandleError 400 (errors.New heap (http.StatusText 400))
  | none =>
    match service with
    | .error err =>
      if errors.Is err (errors.New heap (http.StatusText 400)) then
        handler.HandleError 400 err
      else if errors.Is err (errors.New (heap + 1) (http.StatusText 409)) then
        handler.HandleError 409 err
      else handler.HandleError 500 err
    | .ok _ => ⟨201, none⟩

/-- `UserHandlerImpl.Login`. -/
def UserHandlerImpl.Login {R : Type} (heap : Nat) (bind : Option GoError)
    (service : Except GoError R) : Reply :=
  match bind with
  | some _ => handler.HandleError 400 (errors.New heap (http.StatusText 400))
  | none =>
    match service with
    | .error err =>
      if errors.Is err (errors.New heap (http.StatusText 400)) then
        handler.HandleError 400 err
      else if errors.Is err (errors.New (heap + 1) (http.StatusText 401)) then
        handler.HandleError 401 err
      else handler.HandleError 500 err
    | .ok _ => ⟨200, none⟩

/-- `UserHandlerImpl.Profile`. -/
def UserHandlerImpl.Profile {R : Type} (heap : Nat) (service : Except GoError R) : Reply :=
  match service with
  | .error err =>
    if errors.Is err (errors.New heap (http.StatusText 400)) then
      handler.HandleError 400 err
    else if errors.Is err (errors.New (heap + 1) (http.StatusText 404)) then
      handler.HandleError 404 err
    else handler.HandleError 500 err
  | .ok _ => ⟨200, none⟩

/-- `UserHandlerImpl.Update`. -/
def UserHandlerImpl.Update {R : Type} (heap : Nat) (bind : Option GoError)
    (service : Except GoError R) : Reply :=
  match bind with
  | some _ => handler.HandleError 400 (errors.New heap (http.StatusText 400))
  | none =>
    match service with
    | .error err =>
      if errors.Is err (errors.New heap (http.StatusText 400)) then
        handler.HandleError 400 err
      else if errors.Is err (errors.New (heap + 1) (http.StatusText 404)) then
        handler.HandleError 404 err
      else handler.HandleError 500 err
    | .ok _ => ⟨200, none⟩

/-- `UserHandlerImpl.RefreshToken`. -/
def UserHandlerImpl.RefreshToken {R : Type} (heap : Nat) (bind : Option GoError)
    (service : Except GoError R) : Reply :=
  match bind with
  | some _ => handler.HandleError 400 (errors.New heap (http.StatusText 400))
  | none =>
    match service with
    | .error err =>
      if errors.Is err (errors.New heap (http.StatusText 400)) then
        handler.HandleError 400 err
      else if errors.Is err (errors.New (heap + 1) (http.StatusText 401)) then
        handler.HandleError 401 err
      else handler.HandleError 500 err
    | .ok _ => ⟨200, none⟩

/-! ## The contract, in the words of the specification -/

/-- The WHERE conditions the contract asks for: one for each filter field, in the order
ID, Name, Description, Date, Time, VenueID, that is set and not the zero value. -/
def filterConds (o : EventQueryOptions) : List Cond :=
  [ o.ID.bind (fun id => if id = 0 then none else some ⟨"id = ?", .uint id⟩),
    o.Name.bind (fun s =>
      if s = "" then none else some ⟨"LOWER(name) LIKE LOWER(?)", .str ("%" ++ s ++ "%")⟩),
    o.Description.bind (fun s =>
      if s = "" then none
      else some ⟨"LOWER(description) LIKE LOWER(?)", .str ("%" ++ s ++ "%")⟩),
    o.Date.bind (fun s => if s = "" then none else some ⟨"DATE(date) = ?", .str s⟩),
    o.Time.bind (fun s => if s = "" then none else some ⟨"time = ?::time", .str s⟩),
    o.VenueID.bind (fun id => if id = 0 then none else some ⟨"venue_id = ?", .uint id⟩)
  ].reduceOption

/-- The filter predicate of the options: a row passes when it agrees with every filter
that is set and not the zero value. -/
def matchesFilter (o : EventQueryOptions) (e : Event) : Bool :=
  (match o.ID with
   | some id => decide (id = 0) || decide (e.ID = id)
   | none => true) &&
  (match o.Name with
   | some s => decide (s = "") || lowerLike e.Name ("%" ++ s ++ "%")
   | none => true) &&
  (match o.Description with
   | some s => decide (s = "") || lowerLike e.Description ("%" ++ s ++ "%")
   | none => true) &&
  (match o.Date with
   | some s => decide (s = "") || decide (sqlDate e.Date = s)
   | none => true) &&
  (match o.Time with
   | some s => decide (s = "") || decide (e.Time = s)
   | none => true) &&
  (match o.VenueID with
   | some id => decide (id = 0) || decide (e.VenueID = id)
   | none => true)

/-- The ORDER BY clauses the contract asks for when a sort field is given: the field
and the lower-cased direction when both are allowed, the default order otherwise. -/
def sortClauses (o : EventQueryOptions) : List String :=
  if o.SortField = "" then []
  else if o.SortField ∈ ["ID", "name", "description", "date", "time", "venue_id", "created_at"]
      ∧ strings.ToLower o.Order ∈ ["asc", "desc"] then
    [o.SortField ++ " " ++ strings.ToLower o.Order]
  else ["created_at DESC"]

/-- The characters SQL `LIKE` gives a meaning of their own. -/
def likeMeta (c : Char) : Bool := c = '%' || c = '_' || c = '\\'

/-- A table of 25 events with ids 1 to 25, for the worked example of the listing. -/
def sampleEvents : List Event :=
  (List.range 25).map (fun i => ⟨i + 1, "Event", "", "2026-01-01 00:00:00", "19:00", 1, i + 1⟩)

/-! ## Lemmas on the runtime model -/

theorem wrapInt_of_isInt (x : Int) (h : isInt x) : wrapInt x = x := by
  unfold isInt at h
  unfold wrapInt
  have h1 : (x + 2 ^ 63) % 2 ^ 64 = x + 2 ^ 63 := Int.emod_eq_of_lt (by omega) (by omega)
  omega

theorem mapLookup_validSortFields (s : String) :
    mapLookup validSortFields s = true ↔
      s ∈ ["ID", "name", "description", "date", "time", "venue_id", "created_at"] := by
  simp only [mapLookup, validSortFields, List.lookup]
  by_cases h1 : s = "ID"
  · simp [h1]
  by_cases h2 : s = "name"
  · simp [h2]
  by_cases h3 : s = "description"
  · simp [h3]
  by_cases h4 : s = "date"
  · simp [h4]
  by_cases h5 : s = "time"
  · simp [h5]
  by_cases h6 : s = "venue_id"
  · simp [h6]
  by_cases h7 : s = "created_at"
  · simp [h7]
  simp [h1, h2, h3, h4, h5, h6, h7, beq_eq_false_iff_ne.mpr]

theorem mapLookup_validOrders (s : String) :
    mapLookup validOrders s = true ↔ s ∈ ["asc", "desc"] := by
  simp only [mapLookup, validOrders, List.lookup]
  by_cases h1 : s = "asc"
  · simp [h1]
  by_cases h2 : s = "desc"
  · simp [h2]
  simp [h1, h2, beq_eq_false_iff_ne.mpr]

/-! ## Lemmas on the query builder -/

theorem reduceOption_cons_toList {α : Type} (x : Option α) (xs : List (Option α)) :
    (x :: xs).reduceOption = x.toList ++ xs.reduceOption := by
  cases x <;> simp [List.reduceOption_cons_of_some, List.reduceOption_cons_of_none]

theorem whereStep_uint (q : DB) (x : Option Nat) (sql : String) :
    (match x with
      | some id => if id ≠ 0 then q.Where sql (.uint id) else q
      | none => q) =
    { q with wheres := q.wheres ++
        (x.bind (fun id => if id = 0 then none else some (Cond.mk sql (.uint id)))).toList } := by
  rcases x with _ | id
  · simp
  · by_cases h : id = 0 <;> simp [h, DB.Where]

theorem whereStep_str (q : DB) (x : Option String) (sql : String) (f : String → String) :
    (match x with
      | some s => if s ≠ "" then q.Where sql (.str (f s)) else q
      | none => q) =
    { q with wheres := q.wheres ++
        (x.bind (fun s => if s = "" then none else some (Cond.mk sql (.str (f s))))).toList } := by
  rcases x with _ | s
  · simp
  · by_cases h : s = "" <;> simp [h, DB.Where]

theorem sortStep (q : DB) (o : EventQueryOptions) :
    (if o.SortField ≠ "" then
      if (mapLookup validSortFields o.SortField && mapLookup validOrders (strings.ToLower o.Order))
          = true then
        q.Order (o.SortField ++ " " ++ strings.ToLower o.Order)
      else q.Order "created_at DESC"
    else q) = { q with orders := q.orders ++ sortClauses o } := by
  have hs := mapLookup_validSortFields o.SortField
  have ho := mapLookup_validOrders (strings.ToLower o.Order)
  unfold sortClauses
  by_cases h : o.SortField = ""
  · simp [h]
  · simp only [ne_eq, h, not_false_eq_true, if_true, if_false, Bool.and_eq_true, hs, ho, DB.Order]
    split_ifs <;> rfl

theorem buildPaginatedQuery_eq (db : DB) (o : EventQueryOptions) :
    EventRepositoryImpl.buildPaginatedQuery db o =
      { db with wheres := db.wheres ++ filterConds o, orders := db.orders ++ sortClauses o } := by
  unfold EventRepositoryImpl.buildPaginatedQuery
  simp only [whereStep_uint, whereStep_str _ _ _ (fun s => "%" ++ s ++ "%"),
    whereStep_str _ _ _ (fun s => s), sortStep, DB.Model]
  simp only [filterConds, reduceOption_cons_toList, List.reduceOption_nil, List.append_nil,
    List.append_assoc]

theorem all_condStep_uint (x : Option Nat) (c : Nat → Cond) (e : Event) :
    ((x.bind (fun v => if v = 0 then none else some (c v))).toList.all
        (fun k => evalCond k e)) =
      (match x with
       | some v => decide (v = 0) || evalCond (c v) e
       | none => true) := by
  rcases x with _ | v
  · simp
  · by_cases h : v = 0 <;> simp [h]

theorem all_condStep_str (x : Option String) (c : String → Cond) (e : Event) :
    ((x.bind (fun v => if v = "" then none else some (c v))).toList.all
        (fun k => evalCond k e)) =
      (match x with
       | some v => decide (v = "") || evalCond (c v) e
       | none => true) := by
  rcases x with _ | v
  · simp
  · by_cases h : v = "" <;> simp [h]

theorem evalCond_id (n : Nat) (e : Event) :
    evalCond ⟨"id = ?", .uint n⟩ e = decide (e.ID = n) := by
  simp [evalCond]

theorem evalCond_venue (n : Nat) (e : Event) :
    evalCond ⟨"venue_id = ?", .uint n⟩ e = decide (e.VenueID = n) := by
  simp [evalCond]

theorem evalCond_name (s : String) (e : Event) :
    evalCond ⟨"LOWER(name) LIKE LOWER(?)", .str s⟩ e = lowerLike e.Name s := by
  simp [evalCond]

theorem evalCond_description (s : String) (e : Event) :
    evalCond ⟨"LOWER(description) LIKE LOWER(?)", .str s⟩ e = lowerLike e.Description s := by
  simp [evalCond]

theorem evalCond_date (s : String) (e : Event) :
    evalCond ⟨"DATE(date) = ?", .str s⟩ e = decide (sqlDate e.Date = s) := by
  simp [evalCond]

theorem evalCond_time (s : String) (e : Event) :
    evalCond ⟨"time = ?::time", .str s⟩ e = decide (e.Time = s) := by
  simp [evalCond]

theorem filterConds_all (o : EventQueryOptions) (e : Event) :
    (filterConds o).all (fun k => evalCond k e) = matchesFilter o e := by
  simp only [filterConds, reduceOption_cons_toList, List.reduceOption_nil, List.append_nil,
    List.all_append, all_condStep_uint, all_condStep_str, evalCond_id, evalCond_venue,
    evalCond_name, evalCond_description, evalCond_date, evalCond_time, matchesFilter,
    Bool.and_assoc]

theorem session_matching (rows : List Event) (o : EventQueryOptions) :
    (EventRepositoryImpl.buildPaginatedQuery (DB.session rows) o).matching =
      rows.filter (matchesFilter o) := by
  rw [buildPaginatedQuery_eq]
  simp only [DB.matching, DB.session, List.nil_append, filterConds_all]

/-! ## Lemmas on pagination -/

theorem normalizePaging_Page (o : EventQueryOptions) :
    (EventRepositoryImpl.normalizePaging o).Page = if o.Page ≤ 0 then 1 else o.Page := by
  unfold EventRepositoryImpl.normalizePaging
  by_cases hp : o.Page ≤ 0 <;> by_cases hs : o.Size ≤ 0 <;> simp [hp, hs]

theorem normalizePaging_Size (o : EventQueryOptions) :
    (EventRepositoryImpl.normalizePaging o).Size = if o.Size ≤ 0 then 10 else o.Size := by
  unfold EventRepositoryImpl.normalizePaging
  by_cases hp : o.Page ≤ 0 <;> by_cases hs : o.Size ≤ 0 <;> simp [hp, hs]

theorem normalizePaging_filters (o : EventQueryOptions) :
    filterConds (EventRepositoryImpl.normalizePaging o) = filterConds o ∧
    matchesFilter (EventRepositoryImpl.normalizePaging o) = matchesFilter o ∧
    sortClauses (EventRepositoryImpl.normalizePaging o) = sortClauses o := by
  unfold EventRepositoryImpl.normalizePaging
  by_cases hp : o.Page ≤ 0 <;> by_cases hs : o.Size ≤ 0 <;>
    simp [hp, hs, filterConds, sortClauses] <;> rfl

theorem GetPaginated_opts (db : DB) (events : List Event) (o : EventQueryOptions) :
    (EventRepositoryImpl.GetPaginated db events o).opts = EventRepositoryImpl.normalizePaging o := by
  unfold EventRepositoryImpl.GetPaginated
  simp only []
  split
  · rfl
  · split <;> rfl

/-! ## Lemmas on the paginated listing -/

/-- Without overflow the offset is the product of the defaulted values. -/
theorem pageOffset_of_fits (opts : EventQueryOptions)
    (hp : isInt opts.Page) (hs : isInt opts.Size)
    (hfit : ((EventRepositoryImpl.normalizePaging opts).Page - 1)
        * (EventRepositoryImpl.normalizePaging opts).Size < 2 ^ 63) :
    EventRepositoryImpl.pageOffset (EventRepositoryImpl.normalizePaging opts)
        = ((EventRepositoryImpl.normalizePaging opts).Page - 1)
            * (EventRepositoryImpl.normalizePaging opts).Size ∧
    0 ≤ EventRepositoryImpl.pageOffset (EventRepositoryImpl.normalizePaging opts) := by
  have hP := normalizePaging_Page opts
  have hS := normalizePaging_Size opts
  unfold EventRepositoryImpl.pageOffset
  generalize (EventRepositoryImpl.normalizePaging opts).Page = P at *
  generalize (EventRepositoryImpl.normalizePaging opts).Size = S at *
  unfold isInt at hp hs
  have hP1 : 1 ≤ P := by rw [hP]; split_ifs <;> omega
  have hS1 : 1 ≤ S := by rw [hS]; split_ifs <;> omega
  have hPle : P < 2 ^ 63 := by rw [hP]; split_ifs <;> omega
  have hprod : 0 ≤ (P - 1) * S := Int.mul_nonneg (by omega) (by omega)
  rw [wrapInt_of_isInt (P - 1) ⟨by omega, by omega⟩,
    wrapInt_of_isInt ((P - 1) * S) ⟨by omega, hfit⟩]
  exact ⟨rfl, hprod⟩


/-- The offset is the product of the defaulted values whenever that product is below
2^63. -/
theorem pageOffset_of_product_lt (opts : EventQueryOptions)
    (hfit : ((EventRepositoryImpl.normalizePaging opts).Page - 1)
        * (EventRepositoryImpl.normalizePaging opts).Size < 2 ^ 63) :
    EventRepositoryImpl.pageOffset (EventRepositoryImpl.normalizePaging opts)
        = ((EventRepositoryImpl.normalizePaging opts).Page - 1)
            * (EventRepositoryImpl.normalizePaging opts).Size := by
  have hP := normalizePaging_Page opts
  have hS := normalizePaging_Size opts
  unfold EventRepositoryImpl.pageOffset
  generalize (EventRepositoryImpl.normalizePaging opts).Page = P at *
  generalize (EventRepositoryImpl.normalizePaging opts).Size = S at *
  have hP1 : 1 ≤ P := by rw [hP]; split_ifs <;> omega
  have hS1 : 1 ≤ S := by rw [hS]; split_ifs <;> omega
  have hprod : 0 ≤ (P - 1) * S := Int.mul_nonneg (by omega) (by omega)
  have hle : P - 1 ≤ (P - 1) * S := by nlinarith
  rw [wrapInt_of_isInt (P - 1) ⟨by omega, by omega⟩,
    wrapInt_of_isInt ((P - 1) * S) ⟨by omega, hfit⟩]

theorem normalizePaging_eq (o : EventQueryOptions) :
    EventRepositoryImpl.normalizePaging o =
      { o with Page := (if o.Page ≤ 0 then 1 else o.Page),
               Size := (if o.Size ≤ 0 then 10 else o.Size) } := by
  unfold EventRepositoryImpl.normalizePaging
  by_cases hp : o.Page ≤ 0 <;> by_cases hs : o.Size ≤ 0 <;> simp [hp, hs]

theorem orderRows_perm (clauses : List String) (rows : List Event) :
    (orderRows clauses rows).Perm rows := by
  induction clauses with
  | nil => exact List.Perm.refl rows
  | cons c cs ih =>
    simp only [orderRows, List.foldr_cons]
    exact (List.perm_insertionSort _ _).trans ih

theorem orderRows_length (clauses : List String) (rows : List Event) :
    (orderRows clauses rows).length = rows.length :=
  (orderRows_perm clauses rows).length_eq

theorem normalizePaging_Size_pos (o : EventQueryOptions) :
    1 ≤ (EventRepositoryImpl.normalizePaging o).Size := by
  rw [normalizePaging_Size]
  split_ifs <;> omega

theorem normalizePaging_Page_pos (o : EventQueryOptions) :
    1 ≤ (EventRepositoryImpl.normalizePaging o).Page := by
  rw [normalizePaging_Page]
  split_ifs <;> omega

/-- What `GetPaginated` computes on a healthy session, in closed form. -/
theorem GetPaginated_session (rows events : List Event) (o : EventQueryOptions) :
    EventRepositoryImpl.GetPaginated (DB.session rows) events o =
      ⟨((rows.filter (matchesFilter o)).length : Int), none,
        ((orderRows (sortClauses o) (rows.filter (matchesFilter o))).drop
          (EventRepositoryImpl.pageOffset (EventRepositoryImpl.normalizePaging o)).toNat).take
          (EventRepositoryImpl.normalizePaging o).Size.toNat,
        EventRepositoryImpl.normalizePaging o⟩ := by
  have hS := normalizePaging_Size_pos o
  obtain ⟨_, hm, hc⟩ := normalizePaging_filters o
  have hmatch := session_matching rows (EventRepositoryImpl.normalizePaging o)
  rw [hm] at hmatch
  have hq := buildPaginatedQuery_eq (DB.session rows) (EventRepositoryImpl.normalizePaging o)
  have hcount : (EventRepositoryImpl.buildPaginatedQuery (DB.session rows)
      (EventRepositoryImpl.normalizePaging o)).Count
      = .ok ((rows.filter (matchesFilter o)).length : Int) := by
    unfold DB.Count
    rw [hmatch, hq]
    rfl
  have hfind : (EventRepositoryImpl.pageQuery (DB.session rows)
      (EventRepositoryImpl.normalizePaging o)).Find
      = .ok (((orderRows (sortClauses o) (rows.filter (matchesFilter o))).drop
          (EventRepositoryImpl.pageOffset (EventRepositoryImpl.normalizePaging o)).toNat).take
          (EventRepositoryImpl.normalizePaging o).Size.toNat) := by
    have hm2 : (EventRepositoryImpl.pageQuery (DB.session rows)
        (EventRepositoryImpl.normalizePaging o)).matching = rows.filter (matchesFilter o) := by
      rw [← hmatch]
      rfl
    have hfault : (EventRepositoryImpl.buildPaginatedQuery (DB.session rows)
        (EventRepositoryImpl.normalizePaging o)).fault = none := by
      rw [hq]
      rfl
    have horders : (EventRepositoryImpl.buildPaginatedQuery (DB.session rows)
        (EventRepositoryImpl.normalizePaging o)).orders = sortClauses o := by
      rw [hq, hc]
      rfl
    unfold DB.Find
    rw [hm2]
    simp only [EventRepositoryImpl.pageQuery, DB.Limit, DB.Offset, hfault, horders]
    rw [if_pos (by omega)]
  unfold EventRepositoryImpl.GetPaginated
  simp only [hcount, hfind]

/-! ## Lemmas on `LIKE` -/

theorem likeMeta_toLower (c : Char) (h : likeMeta c = false) : likeMeta c.toLower = false := by
  unfold likeMeta at h ⊢
  unfold Char.toLower
  simp only []
  split_ifs with hr
  · obtain ⟨h1, h2⟩ := hr
    have hmem : c.toNat + 32 ∈ Finset.Icc 97 122 := by
      simp only [Finset.mem_Icc]
      omega
    generalize c.toNat + 32 = n at hmem
    revert n
    decide
  · exact h

theorem likeMatch_literal_cons (c : Char) (p t : List Char) (hc : likeMeta c = false) :
    likeMatch (c :: p) t =
      (match t with
       | [] => false
       | x :: t1 => decide (x = c) && likeMatch p t1) := by
  simp only [likeMeta, Bool.or_eq_false_iff, decide_eq_false_iff_not] at hc
  obtain ⟨⟨h1, h2⟩, h3⟩ := hc
  unfold likeMatch
  cases t <;> simp only [likeFrom, h1, h2, h3, if_false, Bool.false_eq_true]

theorem likeMatch_percent (p t : List Char) :
    likeMatch ('%' :: p) t = t.tails.any (fun s => likeMatch p s) := by
  unfold likeMatch
  cases t <;> simp only [likeFrom, if_false, if_true, Bool.false_eq_true]

theorem likeMatch_nil (t : List Char) : likeMatch [] t = t.isEmpty := by
  simp [likeMatch, likeFrom]

/-- A pattern of literal characters followed by `%` matches the texts it starts. -/
theorem likeMatch_literal_percent (l : List Char) (hl : ∀ c ∈ l, likeMeta c = false)
    (t : List Char) : likeMatch (l ++ ['%']) t = true ↔ l <+: t := by
  induction l generalizing t with
  | nil =>
    simp only [List.nil_append, likeMatch_percent, List.any_eq_true, List.mem_tails]
    constructor
    · intro _
      exact List.nil_prefix
    · intro _
      exact ⟨[], List.nil_suffix, by simp [likeMatch_nil]⟩
  | cons c l ih =>
    have hc : likeMeta c = false := hl c (List.mem_cons_self c l)
    have hl2 : ∀ d ∈ l, likeMeta d = false := fun d hd => hl d (List.mem_cons_of_mem c hd)
    rw [List.cons_append, likeMatch_literal_cons c _ t hc]
    cases t with
    | nil => simp
    | cons x t1 =>
      simp only [Bool.and_eq_true, decide_eq_true_eq, ih hl2 t1, List.cons_prefix_cons]
      constructor
      · rintro ⟨h1, h2⟩
        exact ⟨h1.symm, h2⟩
      · rintro ⟨h1, h2⟩
        exact ⟨h1.symm, h2⟩

/-- The pattern `%l%` with `l` literal matches the texts that contain `l`. -/
theorem likeMatch_contains (l : List Char) (hl : ∀ c ∈ l, likeMeta c = false)
    (t : List Char) : likeMatch ('%' :: (l ++ ['%'])) t = true ↔ l <:+: t := by
  rw [likeMatch_percent, List.any_eq_true, List.infix_iff_prefix_suffix]
  constructor
  · rintro ⟨s, hs, hm⟩
    exact ⟨s, (likeMatch_literal_percent l hl s).1 hm, (List.mem_tails s t).1 hs⟩
  · rintro ⟨s, hp, hs⟩
    exact ⟨s, (List.mem_tails s t).2 hs, (likeMatch_literal_percent l hl s).2 hp⟩

theorem lowerLike_contains (value s : String) (hl : ∀ c ∈ s.data, likeMeta c = false) :
    lowerLike value ("%" ++ s ++ "%") = true ↔
      (strings.ToLower s).data <:+: (strings.ToLower value).data := by
  have hdata : (strings.ToLower ("%" ++ s ++ "%")).data
      = '%' :: ((strings.ToLower s).data ++ ['%']) := by
    simp only [strings.ToLower, String.data_append, List.map_append]
    rfl
  have hlit : ∀ c ∈ (strings.ToLower s).data, likeMeta c = false := by
    intro c hc
    simp only [strings.ToLower, List.mem_map] at hc
    obtain ⟨d, hd, rfl⟩ := hc
    exact likeMeta_toLower d (hl d hd)
  unfold lowerLike
  rw [hdata]
  exact likeMatch_contains _ hlit _

/-! ## Lemmas on errors -/

theorem allocatedBelow_succ (err : GoError) (heap : Nat)
    (h : err.allocatedBelow heap = true) : err.allocatedBelow (heap + 1) = true := by
  induction err with
  | errorString a t =>
    simp only [GoError.allocatedBelow, decide_eq_true_eq] at h ⊢
    omega
  | wrapError a m inner ih =>
    simp only [GoError.allocatedBelow, Bool.and_eq_true, decide_eq_true_eq] at h ⊢
    exact ⟨by omega, ih h.2⟩

/-- An error made before the target was allocated never matches a target that
`errors.New` has just made. -/
theorem errors_Is_New_eq_false (err : GoError) (heap : Nat) (text : String)
    (h : err.allocatedBelow heap = true) : errors.Is err (errors.New heap text) = false := by
  induction err with
  | errorString a t =>
    simp only [GoError.allocatedBelow, decide_eq_true_eq] at h
    simp only [errors.Is, errors.New, decide_eq_false_iff_not, GoError.errorString.injEq,
      not_and]
    intro ha
    omega
  | wrapError a m inner ih =>
    simp only [GoError.allocatedBelow, Bool.and_eq_true, decide_eq_true_eq] at h
    have hi := ih h.2
    simp only [errors.New] at hi
    simp [errors.Is, errors.New, hi]

/-- Every user handler answers 500 to every service error made before the handler
ran. -/
theorem user_handlers_always_500 {R : Type} (err : GoError) (heap : Nat)
    (h : err.allocatedBelow heap = true) :
    UserHandlerImpl.Register heap none (Except.error err : Except GoError R) = ⟨500, some err⟩ ∧
    UserHandlerImpl.Login heap none (Except.error err : Except GoError R) = ⟨500, some err⟩ ∧
    UserHandlerImpl.Profile heap (Except.error err : Except GoError R) = ⟨500, some err⟩ ∧
    UserHandlerImpl.Update heap none (Except.error err : Except GoError R) = ⟨500, some err⟩ ∧
    UserHandlerImpl.RefreshToken heap none (Except.error err : Except GoError R)
      = ⟨500, some err⟩ := by
  have h0 := fun text => errors_Is_New_eq_false err heap text h
  have h1 := fun text => errors_Is_New_eq_false err (heap + 1) text (allocatedBelow_succ err heap h)
  simp [UserHandlerImpl.Register, UserHandlerImpl.Login, UserHandlerImpl.Profile,
    UserHandlerImpl.Update, UserHandlerImpl.RefreshToken, h0, h1, handler.HandleError]

theorem errors_Is_self (err : GoError) : errors.Is err err = true := by
  cases err <;> simp [errors.Is]

/-! ## Lemmas on single-record lookup -/

theorem where_id_matching (rows : List Event) (id : Nat) :
    ((DB.session rows).Where "id = ?" (.uint id)).matching
      = rows.filter (fun e => decide (e.ID = id)) := by
  simp only [DB.matching, DB.Where, DB.session, List.nil_append, List.all_cons, List.all_nil,
    Bool.and_true, evalCond_id]

theorem sorted_head_cases (l : List Event) :
    (l = [] ∧ l.insertionSort (fun a b => a.ID ≤ b.ID) = []) ∨
    ∃ x xs, x ∈ l ∧ l.insertionSort (fun a b => a.ID ≤ b.ID) = x :: xs := by
  have hperm := List.perm_insertionSort (fun a b : Event => a.ID ≤ b.ID) l
  cases hsort : l.insertionSort (fun a b => a.ID ≤ b.ID) with
  | nil =>
    left
    rw [hsort] at hperm
    exact ⟨(List.Perm.nil_eq hperm).symm, rfl⟩
  | cons x xs =>
    right
    rw [hsort] at hperm
    exact ⟨x, xs, hperm.subset (List.mem_cons_self x xs), rfl⟩

theorem First_session_id (rows : List Event) (dest : Event) (id : Nat) :
    ((dest.ID = 0 ∨ dest.ID = id) → (∃ e ∈ rows, e.ID = id) →
      ∃ found ∈ rows, found.ID = id ∧
        ((DB.session rows).Where "id = ?" (.uint id)).First dest = .ok found) ∧
    ((∀ e ∈ rows, e.ID ≠ id) →
      ((DB.session rows).Where "id = ?" (.uint id)).First dest
        = .error gorm.ErrRecordNotFound) ∧
    (dest.ID ≠ 0 → dest.ID ≠ id →
      ((DB.session rows).Where "id = ?" (.uint id)).First dest
        = .error gorm.ErrRecordNotFound) := by
  have hfault : ((DB.session rows).Where "id = ?" (.uint id)).fault = none := rfl
  have hmem : ∀ x, x ∈ (rows.filter (fun e => decide (e.ID = id))).filter
      (fun e => decide (dest.ID = 0) || decide (e.ID = dest.ID)) ↔
      x ∈ rows ∧ x.ID = id ∧ (dest.ID = 0 ∨ x.ID = dest.ID) := by
    intro x
    simp only [List.mem_filter, decide_eq_true_eq, Bool.or_eq_true, and_assoc]
  have hnone : (∀ x ∈ rows, x.ID = id → ¬ (dest.ID = 0 ∨ x.ID = dest.ID)) →
      ((DB.session rows).Where "id = ?" (.uint id)).First dest
        = .error gorm.ErrRecordNotFound := by
    intro hno
    unfold DB.First
    rw [hfault, where_id_matching]
    have hnil : (rows.filter (fun e => decide (e.ID = id))).filter
        (fun e => decide (dest.ID = 0) || decide (e.ID = dest.ID)) = [] := by
      apply List.eq_nil_iff_forall_not_mem.2
      intro x hx
      obtain ⟨h1, h2, h3⟩ := (hmem x).1 hx
      exact hno x h1 h2 h3
    simp [hnil]
  refine ⟨?_, ?_, ?_⟩
  · rintro hdest ⟨e, he, hid⟩
    have hin : e ∈ (rows.filter (fun e => decide (e.ID = id))).filter
        (fun e => decide (dest.ID = 0) || decide (e.ID = dest.ID)) := by
      refine (hmem e).2 ⟨he, hid, ?_⟩
      rcases hdest with h | h
      · exact Or.inl h
      · exact Or.inr (by rw [hid, h])
    unfold DB.First
    rw [hfault, where_id_matching]
    simp only []
    rcases sorted_head_cases ((rows.filter (fun e => decide (e.ID = id))).filter
        (fun e => decide (dest.ID = 0) || decide (e.ID = dest.ID))) with ⟨hnil, -⟩ | ⟨x, xs, hx, hs⟩
    · rw [hnil] at hin
      simp at hin
    · rw [hs]
      obtain ⟨h1, h2, -⟩ := (hmem x).1 hx
      exact ⟨x, h1, h2, rfl⟩
  · intro hno
    exact hnone (fun x hx hid _ => hno x hx hid)
  · intro h0 hne
    apply hnone
    intro x _ hid hor
    rcases hor with h | h
    · exact h0 h
    · exact hne (by rw [← h, hid])

/-! ## Claims -/

/-- C1: `GetPaginated` defaults the pagination before use.  With `page` = 1 when the
given Page is at most 0 and the given Page otherwise, and `size` = 10 when the given
Size is at most 0 and the given Size otherwise: the options it leaves behind carry
`page` and `size`; what it returns is what Count and Find give on the statement built
from the options with `page` and `size`, with offset `(page - 1) * size` (in Go `int`
arithmetic) and limit `size`; on a healthy session the items are the filtered, ordered
rows after that offset, at most `size` of them; and a Page or Size of at least 1 is
used unchanged. -/
theorem GetPaginated_normalises_pagination (db : DB) (events : List Event)
    (opts : EventQueryOptions) :
    (EventRepositoryImpl.GetPaginated db events opts).opts.Page
        = (if opts.Page ≤ 0 then 1 else opts.Page) ∧
    (EventRepositoryImpl.GetPaginated db events opts).opts.Size
        = (if opts.Size ≤ 0 then 10 else opts.Size) ∧
    (EventRepositoryImpl.pageQuery db (EventRepositoryImpl.normalizePaging opts)).offset
        = wrapInt (wrapInt ((if opts.Page ≤ 0 then 1 else opts.Page) - 1)
            * (if opts.Size ≤ 0 then 10 else opts.Size)) ∧
    (EventRepositoryImpl.pageQuery db (EventRepositoryImpl.normalizePaging opts)).limit
        = some (if opts.Size ≤ 0 then 10 else opts.Size) ∧
    (1 ≤ opts.Page → (EventRepositoryImpl.GetPaginated db events opts).opts.Page = opts.Page) ∧
    (1 ≤ opts.Size → (EventRepositoryImpl.GetPaginated db events opts).opts.Size = opts.Size) ∧
    EventRepositoryImpl.GetPaginated db events opts =
      (match (EventRepositoryImpl.buildPaginatedQuery db
          { opts with Page := (if opts.Page ≤ 0 then 1 else opts.Page),
                      Size := (if opts.Size ≤ 0 then 10 else opts.Size) }).Count with
       | .error err =>
         ⟨0, some err, events,
           { opts with Page := (if opts.Page ≤ 0 then 1 else opts.Page),
                       Size := (if opts.Size ≤ 0 then 10 else opts.Size) }⟩
       | .ok totalCount =>
         match (((EventRepositoryImpl.buildPaginatedQuery db
            { opts with Page := (if opts.Page ≤ 0 then 1 else opts.Page),
                        Size := (if opts.Size ≤ 0 then 10 else opts.Size) }).Offset
            (wrapInt (wrapInt ((if opts.Page ≤ 0 then 1 else opts.Page) - 1)
              * (if opts.Size ≤ 0 then 10 else opts.Size)))).Limit
            (if opts.Size ≤ 0 then 10 else opts.Size)).Find with
         | .error err =>
           ⟨0, some err, events,
             { opts with Page := (if opts.Page ≤ 0 then 1 else opts.Page),
                         Size := (if opts.Size ≤ 0 then 10 else opts.Size) }⟩
         | .ok found =>
           ⟨totalCount, none, found,
             { opts with Page := (if opts.Page ≤ 0 then 1 else opts.Page),
                         Size := (if opts.Size ≤ 0 then 10 else opts.Size) }⟩) ∧
    (∀ rows : List Event,
      (EventRepositoryImpl.GetPaginated (DB.session rows) events opts).events
        = ((orderRows (sortClauses opts) (rows.filter (matchesFilter opts))).drop
            (wrapInt (wrapInt ((if opts.Page ≤ 0 then 1 else opts.Page) - 1)
              * (if opts.Size ≤ 0 then 10 else opts.Size))).toNat).take
            (if opts.Size ≤ 0 then 10 else opts.Size).toNat) := by
  refine ⟨?_, ?_, ?_, ?_, ?_, ?_, ?_, ?_⟩
  · rw [GetPaginated_opts]
    exact normalizePaging_Page opts
  · rw [GetPaginated_opts]
    exact normalizePaging_Size opts
  · simp only [EventRepositoryImpl.pageQuery, DB.Limit, DB.Offset,
      EventRepositoryImpl.pageOffset, normalizePaging_Page, normalizePaging_Size]
  · simp only [EventRepositoryImpl.pageQuery, DB.Limit, normalizePaging_Size]
  · intro h
    rw [GetPaginated_opts, normalizePaging_Page, if_neg (by omega)]
  · intro h
    rw [GetPaginated_opts, normalizePaging_Size, if_neg (by omega)]
  · unfold EventRepositoryImpl.GetPaginated EventRepositoryImpl.pageQuery
      EventRepositoryImpl.pageOffset
    simp only [normalizePaging_eq]
  · intro rows
    rw [GetPaginated_session]
    simp only [EventRepositoryImpl.pageOffset, normalizePaging_Page, normalizePaging_Size]

/-- C10 (as stated, refuted): with Page = 2^62 + 1 and Size = 2, both Go `int` values,
the offset `(Page - 1) * Size` wraps to -2^63: it is negative and is not the product
2^63. -/
theorem pageOffset_wraps_negative :
    isInt 4611686018427387905 ∧ isInt 2 ∧
    EventRepositoryImpl.pageOffset (EventRepositoryImpl.normalizePaging
      ⟨none, none, none, none, none, none, 4611686018427387905, 2, "", ""⟩)
      = -9223372036854775808 ∧
    EventRepositoryImpl.pageOffset (EventRepositoryImpl.normalizePaging
      ⟨none, none, none, none, none, none, 4611686018427387905, 2, "", ""⟩) < 0 ∧
    ((4611686018427387905 : Int) - 1) * 2 = 9223372036854775808 := by
  decide

/-- C10 (amended): for Page and Size that are Go `int` values, when the product
`(page - 1) * size` of the defaulted values is below 2^63 the offset `GetPaginated`
computes equals this product and is not negative. -/
theorem pageOffset_exact_of_fits (opts : EventQueryOptions)
    (hp : isInt opts.Page) (hs : isInt opts.Size)
    (hfit : ((EventRepositoryImpl.normalizePaging opts).Page - 1)
        * (EventRepositoryImpl.normalizePaging opts).Size < 2 ^ 63) :
    EventRepositoryImpl.pageOffset (EventRepositoryImpl.normalizePaging opts)
        = ((EventRepositoryImpl.normalizePaging opts).Page - 1)
            * (EventRepositoryImpl.normalizePaging opts).Size ∧
    0 ≤ EventRepositoryImpl.pageOffset (EventRepositoryImpl.normalizePaging opts) :=
  pageOffset_of_fits opts hp hs hfit

/-- C10 (amended), at Page = 3 and Size = 10: the offset is 20. -/
theorem pageOffset_exact_of_fits_witness :
    EventRepositoryImpl.pageOffset (EventRepositoryImpl.normalizePaging
        ⟨none, none, none, none, none, none, 3, 10, "", ""⟩)
      = ((EventRepositoryImpl.normalizePaging
          ⟨none, none, none, none, none, none, 3, 10, "", ""⟩).Page - 1)
        * (EventRepositoryImpl.normalizePaging
          ⟨none, none, none, none, none, none, 3, 10, "", ""⟩).Size ∧
    0 ≤ EventRepositoryImpl.pageOffset (EventRepositoryImpl.normalizePaging
        ⟨none, none, none, none, none, none, 3, 10, "", ""⟩) :=
  pageOffset_exact_of_fits ⟨none, none, none, none, none, none, 3, 10, "", ""⟩
    (by decide) (by decide) (by decide)

/-- C2 (as stated, refuted): the empty Sort string is outside the allow-list, and for
it `buildPaginatedQuery` adds no ORDER BY clause at all, so the result is not ordered by
"created_at DESC". -/
theorem buildPaginatedQuery_empty_sort_unordered :
    EventQueryOptions.zero.SortField
      ∉ ["ID", "name", "description", "date", "time", "venue_id", "created_at"] ∧
    (EventRepositoryImpl.buildPaginatedQuery (DB.session []) EventQueryOptions.zero).orders
      = [] ∧
    "created_at DESC" ∉
      (EventRepositoryImpl.buildPaginatedQuery (DB.session []) EventQueryOptions.zero).orders := by
  decide

/-- C2 (amended): for options whose Sort is not empty and is outside the allow-list, or
whose Sort is not empty and whose lower-cased Order is neither asc nor desc,
`buildPaginatedQuery` adds exactly the ORDER BY clause "created_at DESC"; for options
whose Sort is empty, whatever the Order and the other fields are, it adds no ORDER BY
clause. -/
theorem buildPaginatedQuery_invalid_sort_default (db : DB) (opts : EventQueryOptions) :
    (opts.SortField ≠ "" →
      (opts.SortField ∉ ["ID", "name", "description", "date", "time", "venue_id", "created_at"]
        ∨ strings.ToLower opts.Order ∉ ["asc", "desc"]) →
      (EventRepositoryImpl.buildPaginatedQuery db opts).orders
        = db.orders ++ ["created_at DESC"]) ∧
    (opts.SortField = "" →
      (EventRepositoryImpl.buildPaginatedQuery db opts).orders = db.orders) := by
  rw [buildPaginatedQuery_eq]
  constructor
  · intro hne hbad
    simp only [sortClauses, if_neg hne]
    rw [if_neg]
    rintro ⟨h1, h2⟩
    rcases hbad with h | h
    · exact h h1
    · exact h h2
  · intro hempty
    simp [sortClauses, hempty]

/-- C2 (amended), on a new session: Sort = "name; DROP TABLE events" with Order = "asc"
is ordered by "created_at DESC", Sort = "name" with Order = "sideways" too, and the
empty Sort with Order = "desc" gets no ORDER BY clause. -/
theorem buildPaginatedQuery_invalid_sort_default_witness :
    (EventRepositoryImpl.buildPaginatedQuery (DB.session [])
        ⟨none, none, none, none, none, none, 1, 10, "name; DROP TABLE events", "asc"⟩).orders
      = ["created_at DESC"] ∧
    (EventRepositoryImpl.buildPaginatedQuery (DB.session [])
        ⟨none, none, none, none, none, none, 1, 10, "name", "sideways"⟩).orders
      = ["created_at DESC"] ∧
    (EventRepositoryImpl.buildPaginatedQuery (DB.session [])
        ⟨some 3, none, none, none, none, none, 1, 10, "", "desc"⟩).orders = [] :=
  ⟨(buildPaginatedQuery_invalid_sort_default (DB.session [])
      ⟨none, none, none, none, none, none, 1, 10, "name; DROP TABLE events", "asc"⟩).1
      (by decide) (Or.inl (by decide)),
   (buildPaginatedQuery_invalid_sort_default (DB.session [])
      ⟨none, none, none, none, none, none, 1, 10, "name", "sideways"⟩).1
      (by decide) (Or.inr (by decide)),
   (buildPaginatedQuery_invalid_sort_default (DB.session [])
      ⟨some 3, none, none, none, none, none, 1, 10, "", "desc"⟩).2 rfl⟩

/-- C4: the WHERE conditions `buildPaginatedQuery` adds to a handle are exactly
`filterConds`: one condition for each of ID, Name, Description, Date, Time, VenueID that
is set and not the zero value, bound to the field's value (between two `%` for the two
substring filters), in this order; when every filter is nil or the zero value none is
added. -/
theorem buildPaginatedQuery_where_conditions (db : DB) (opts : EventQueryOptions) :
    (EventRepositoryImpl.buildPaginatedQuery db opts).wheres = db.wheres ++ filterConds opts ∧
    (((opts.ID = none ∨ opts.ID = some 0) ∧ (opts.Name = none ∨ opts.Name = some "") ∧
      (opts.Description = none ∨ opts.Description = some "") ∧
      (opts.Date = none ∨ opts.Date = some "") ∧ (opts.Time = none ∨ opts.Time = some "") ∧
      (opts.VenueID = none ∨ opts.VenueID = some 0)) →
      (EventRepositoryImpl.buildPaginatedQuery db opts).wheres = db.wheres) ∧
    (∀ id name description date time venue, id ≠ 0 → name ≠ "" → description ≠ "" →
      date ≠ "" → time ≠ "" → venue ≠ 0 →
      opts.ID = some id → opts.Name = some name → opts.Description = some description →
      opts.Date = some date → opts.Time = some time → opts.VenueID = some venue →
      (EventRepositoryImpl.buildPaginatedQuery db opts).wheres = db.wheres ++
        [⟨"id = ?", .uint id⟩,
         ⟨"LOWER(name) LIKE LOWER(?)", .str ("%" ++ name ++ "%")⟩,
         ⟨"LOWER(description) LIKE LOWER(?)", .str ("%" ++ description ++ "%")⟩,
         ⟨"DATE(date) = ?", .str date⟩,
         ⟨"time = ?::time", .str time⟩,
         ⟨"venue_id = ?", .uint venue⟩]) := by
  rw [buildPaginatedQuery_eq]
  refine ⟨rfl, ?_, ?_⟩
  · rintro ⟨h1, h2, h3, h4, h5, h6⟩
    have : filterConds opts = [] := by
      unfold filterConds
      rcases h1 with h1 | h1 <;> rcases h2 with h2 | h2 <;> rcases h3 with h3 | h3 <;>
        rcases h4 with h4 | h4 <;> rcases h5 with h5 | h5 <;> rcases h6 with h6 | h6 <;>
        simp [h1, h2, h3, h4, h5, h6]
    simp [this]
  · intro id name description date time venue i1 i2 i3 i4 i5 i6 h1 h2 h3 h4 h5 h6
    simp [filterConds, h1, h2, h3, h4, h5, h6, i1, i2, i3, i4, i5, i6]

/-- C9: the ORDER BY clauses after `buildPaginatedQuery` are those of the handle it was
given, followed by nothing, or by "created_at DESC", or by `f ++ " " ++ d` where `f` is
the Sort string and lies in the allow-list and `d` is the lower-cased Order and is one
of asc, desc. -/
theorem buildPaginatedQuery_order_allow_listed (db : DB) (opts : EventQueryOptions) :
    (EventRepositoryImpl.buildPaginatedQuery db opts).orders = db.orders ∨
    (EventRepositoryImpl.buildPaginatedQuery db opts).orders
      = db.orders ++ ["created_at DESC"] ∨
    ∃ f d, f ∈ ["ID", "name", "description", "date", "time", "venue_id", "created_at"] ∧
      d ∈ ["asc", "desc"] ∧ f = opts.SortField ∧ d = strings.ToLower opts.Order ∧
      (EventRepositoryImpl.buildPaginatedQuery db opts).orders = db.orders ++ [f ++ " " ++ d] := by
  rw [buildPaginatedQuery_eq]
  simp only [sortClauses]
  by_cases h : opts.SortField = ""
  · left
    simp [h]
  · right
    rw [if_neg h]
    split_ifs with hv
    · right
      exact ⟨opts.SortField, strings.ToLower opts.Order, hv.1, hv.2, rfl, rfl, rfl⟩
    · left
      rfl

/-- C7 (the code departs from it): a service error whose text is "Bad Request",
"Conflict", "Unauthorized" or "Not Found", made by `errors.New` before the handler runs
(alone or wrapped), is answered with 500 by Register, Login, RefreshToken, Profile and
Update, not with 400, 409, 401 or 404. -/
theorem user_handlers_answer_500_to_classified_errors :
    (UserHandlerImpl.Register 2 none
      (Except.error (errors.New 1 (http.StatusText 400)) : Except GoError Unit)).status = 500 ∧
    (UserHandlerImpl.Register 2 none
      (Except.error (errors.New 1 (http.StatusText 409)) : Except GoError Unit)).status = 500 ∧
    (UserHandlerImpl.Login 2 none
      (Except.error (errors.New 1 (http.StatusText 401)) : Except GoError Unit)).status = 500 ∧
    (UserHandlerImpl.RefreshToken 2 none
      (Except.error (errors.New 1 (http.StatusText 401)) : Except GoError Unit)).status = 500 ∧
    (UserHandlerImpl.Profile 2
      (Except.error (errors.New 1 (http.StatusText 404)) : Except GoError Unit)).status = 500 ∧
    (UserHandlerImpl.Update 2 none
      (Except.error (errors.New 1 (http.StatusText 404)) : Except GoError Unit)).status = 500 ∧
    (UserHandlerImpl.Register 3 none
      (Except.error (GoError.wrapError 2 "register" (errors.New 1 (http.StatusText 409)))
        : Except GoError Unit)).status = 500 := by
  decide

/-- C6 (as stated, refuted): the table has a row with id 1, but the target handed to
`GetByID` already carries the primary key 2, which `First` adds to the query as one more
condition; no row passes both, and `GetByID` returns `gorm.ErrRecordNotFound` with the
target as it was instead of nil and the row. -/
theorem GetByID_target_key_hides_row :
    (∃ e ∈ [(⟨1, "a", "", "", "", 1, 1⟩ : Event)], e.ID = 1) ∧
    EventRepositoryImpl.GetByID (DB.session [⟨1, "a", "", "", "", 1, 1⟩])
        ⟨2, "", "", "", "", 0, 0⟩ 1
      = (some gorm.ErrRecordNotFound, ⟨2, "", "", "", "", 0, 0⟩) := by
  decide

/-- C6 (amended): `GetByID` returns `gorm.ErrRecordNotFound` itself exactly when the
lookup failed with an error that is or wraps record-not-found; it returns every other
lookup error unchanged, leaving the target as it was; and when the table of a healthy
session has a row with the id and the target's primary key is zero or that id, it
returns nil with the target set to a row of the table with that id.  A target carrying
another primary key makes the lookup find nothing. -/
theorem GetByID_error_contract (db : DB) (event : Event) (id : Nat) :
    ((EventRepositoryImpl.GetByID db event id).1 = some gorm.ErrRecordNotFound ↔
      ∃ err, (db.Where "id = ?" (.uint id)).First event = .error err ∧
        errors.Is err gorm.ErrRecordNotFound = true) ∧
    (∀ err, (db.Where "id = ?" (.uint id)).First event = .error err →
      errors.Is err gorm.ErrRecordNotFound = false →
      EventRepositoryImpl.GetByID db event id = (some err, event)) ∧
    (∀ found, (db.Where "id = ?" (.uint id)).First event = .ok found →
      EventRepositoryImpl.GetByID db event id = (none, found)) ∧
    (∀ rows : List Event, (event.ID = 0 ∨ event.ID = id) → (∃ e ∈ rows, e.ID = id) →
      ∃ found ∈ rows, found.ID = id ∧
        EventRepositoryImpl.GetByID (DB.session rows) event id = (none, found)) ∧
    (∀ rows : List Event, event.ID ≠ 0 → event.ID ≠ id →
      EventRepositoryImpl.GetByID (DB.session rows) event id
        = (some gorm.ErrRecordNotFound, event)) := by
  refine ⟨?_, ?_, ?_, ?_, ?_⟩
  · unfold EventRepositoryImpl.GetByID
    cases hF : (db.Where "id = ?" (.uint id)).First event with
    | error err =>
      by_cases hIs : errors.Is err gorm.ErrRecordNotFound = true
      · simp [hIs]
      · simp only [hIs, Bool.false_eq_true, if_false, Option.some.injEq, Except.error.injEq,
          exists_eq_left']
        constructor
        · intro h
          rw [h, errors_Is_self] at hIs
          exact absurd rfl hIs
        · intro h
          exact h.elim
    | ok found => simp
  · intro err hF hIs
    simp [EventRepositoryImpl.GetByID, hF, hIs]
  · intro found hF
    simp [EventRepositoryImpl.GetByID, hF]
  · intro rows hdest hex
    obtain ⟨found, hmem, hid, hF⟩ := (First_session_id rows event id).1 hdest hex
    exact ⟨found, hmem, hid, by simp [EventRepositoryImpl.GetByID, hF]⟩
  · intro rows h0 hne
    have hF := (First_session_id rows event id).2.2 h0 hne
    simp [EventRepositoryImpl.GetByID, hF, errors_Is_self]

/-- C6 (amended), on a table with ids 1 and 2: a new (zero) target and id 2 give nil
and the row with id 2; a failure of the connection that wraps record-not-found gives
`gorm.ErrRecordNotFound` itself, another failure is returned as it is. -/
theorem GetByID_error_contract_witness :
    EventRepositoryImpl.GetByID
        (DB.session [⟨1, "a", "", "", "", 1, 1⟩, ⟨2, "b", "", "", "", 1, 2⟩])
        ⟨0, "", "", "", "", 0, 0⟩ 2
      = (none, ⟨2, "b", "", "", "", 1, 2⟩) ∧
    EventRepositoryImpl.GetByID
        ⟨[], some (.wrapError 5 "lookup" gorm.ErrRecordNotFound), [], [], 0, none⟩
        ⟨0, "", "", "", "", 0, 0⟩ 2
      = (some gorm.ErrRecordNotFound, ⟨0, "", "", "", "", 0, 0⟩) ∧
    EventRepositoryImpl.GetByID
        ⟨[], some (.errorString 5 "connection refused"), [], [], 0, none⟩
        ⟨0, "", "", "", "", 0, 0⟩ 2
      = (some (.errorString 5 "connection refused"), ⟨0, "", "", "", "", 0, 0⟩) := by
  obtain ⟨-, -, h3, -, -⟩ := GetByID_error_contract
    (DB.session [⟨1, "a", "", "", "", 1, 1⟩, ⟨2, "b", "", "", "", 1, 2⟩])
    ⟨0, "", "", "", "", 0, 0⟩ 2
  obtain ⟨h1, -, -, -, -⟩ := GetByID_error_contract
    ⟨[], some (.wrapError 5 "lookup" gorm.ErrRecordNotFound), [], [], 0, none⟩
    ⟨0, "", "", "", "", 0, 0⟩ 2
  obtain ⟨-, h2, -, -, -⟩ := GetByID_error_contract
    ⟨[], some (.errorString 5 "connection refused"), [], [], 0, none⟩
    ⟨0, "", "", "", "", 0, 0⟩ 2
  refine ⟨h3 _ rfl, ?_, h2 _ rfl (by decide)⟩
  have hwrap := h1.2 ⟨.wrapError 5 "lookup" gorm.ErrRecordNotFound, rfl, by decide⟩
  exact Prod.ext hwrap rfl

/-- C3 (as stated, refuted): with Page = 2^62 + 1 and Size = 4 the product
`(page - 1) * size` is 2^64, which wraps to offset 0, so on a table of one row
`GetPaginated` returns that row, while dropping the first 2^64 of the filtered rows
leaves none. -/
theorem GetPaginated_offset_wraps_to_first_page :
    (EventRepositoryImpl.GetPaginated (DB.session [⟨1, "a", "", "", "", 1, 1⟩]) []
      ⟨none, none, none, none, none, none, 4611686018427387905, 4, "", ""⟩).events
      = [⟨1, "a", "", "", "", 1, 1⟩] ∧
    ((orderRows (sortClauses
          ⟨none, none, none, none, none, none, 4611686018427387905, 4, "", ""⟩)
        ([(⟨1, "a", "", "", "", 1, 1⟩ : Event)].filter (matchesFilter
          ⟨none, none, none, none, none, none, 4611686018427387905, 4, "", ""⟩))).drop
      (((4611686018427387905 : Int) - 1) * 4).toNat).take 4 = [] ∧
    isInt 4611686018427387905 ∧ isInt 4 := by
  decide

/-- C3 (amended): on a healthy session over a table `rows`, `GetPaginated` returns no
error, totalCount equal to the number of rows passing the filter predicate (the same
for every Page and Size) and at most `size` items, namely the filtered rows in ORDER BY
order after the offset it computed; when the defaulted product `(page - 1) * size` is
below 2^63 these are the filtered, ordered rows with the first `(page - 1) * size`
dropped and at most `size` taken; and with 25 rows passing, Page 2 and Size 10 they are
the ten rows 11 to 20, with totalCount 25. -/
theorem GetPaginated_page_contract (rows events : List Event) (opts : EventQueryOptions) :
    (EventRepositoryImpl.GetPaginated (DB.session rows) events opts).err = none ∧
    (EventRepositoryImpl.GetPaginated (DB.session rows) events opts).totalCount
      = ((rows.filter (matchesFilter opts)).length : Int) ∧
    (∀ page size : Int,
      (EventRepositoryImpl.GetPaginated (DB.session rows) events
        { opts with Page := page, Size := size }).totalCount
      = (EventRepositoryImpl.GetPaginated (DB.session rows) events opts).totalCount) ∧
    (((EventRepositoryImpl.GetPaginated (DB.session rows) events opts).events.length : Int)
      ≤ (EventRepositoryImpl.normalizePaging opts).Size) ∧
    (EventRepositoryImpl.GetPaginated (DB.session rows) events opts).events
      = ((orderRows (sortClauses opts) (rows.filter (matchesFilter opts))).drop
          (EventRepositoryImpl.pageOffset (EventRepositoryImpl.normalizePaging opts)).toNat).take
          (EventRepositoryImpl.normalizePaging opts).Size.toNat ∧
    (((EventRepositoryImpl.normalizePaging opts).Page - 1)
        * (EventRepositoryImpl.normalizePaging opts).Size < 2 ^ 63 →
      (EventRepositoryImpl.GetPaginated (DB.session rows) events opts).events
        = ((orderRows (sortClauses opts) (rows.filter (matchesFilter opts))).drop
            (((EventRepositoryImpl.normalizePaging opts).Page - 1)
              * (EventRepositoryImpl.normalizePaging opts).Size).toNat).take
            (EventRepositoryImpl.normalizePaging opts).Size.toNat) ∧
    (opts.Page = 2 → opts.Size = 10 → (rows.filter (matchesFilter opts)).length = 25 →
      (EventRepositoryImpl.GetPaginated (DB.session rows) events opts).totalCount = 25 ∧
      (EventRepositoryImpl.GetPaginated (DB.session rows) events opts).events
        = ((orderRows (sortClauses opts) (rows.filter (matchesFilter opts))).drop 10).take 10 ∧
      (EventRepositoryImpl.GetPaginated (DB.session rows) events opts).events.length = 10) := by
  have hS := normalizePaging_Size_pos opts
  have hraw : (EventRepositoryImpl.GetPaginated (DB.session rows) events opts).events
      = ((orderRows (sortClauses opts) (rows.filter (matchesFilter opts))).drop
          (EventRepositoryImpl.pageOffset (EventRepositoryImpl.normalizePaging opts)).toNat).take
          (EventRepositoryImpl.normalizePaging opts).Size.toNat := by
    rw [GetPaginated_session]
  refine ⟨by rw [GetPaginated_session], by rw [GetPaginated_session], ?_, ?_, hraw, ?_, ?_⟩
  · intro page size
    rw [GetPaginated_session, GetPaginated_session]
    rfl
  · rw [hraw, List.length_take]
    omega
  · intro hfit
    rw [hraw, pageOffset_of_product_lt opts hfit]
  · intro h2 h10 h25
    have hP : (EventRepositoryImpl.normalizePaging opts).Page = 2 := by
      rw [normalizePaging_Page, h2]
      rfl
    have hSz : (EventRepositoryImpl.normalizePaging opts).Size = 10 := by
      rw [normalizePaging_Size, h10]
      rfl
    have hfit : ((EventRepositoryImpl.normalizePaging opts).Page - 1)
        * (EventRepositoryImpl.normalizePaging opts).Size < 2 ^ 63 := by
      rw [hP, hSz]
      decide
    have hev := hraw
    rw [pageOffset_of_product_lt opts hfit, hP, hSz] at hev
    have hev2 : (EventRepositoryImpl.GetPaginated (DB.session rows) events opts).events
        = ((orderRows (sortClauses opts) (rows.filter (matchesFilter opts))).drop 10).take 10 :=
      hev
    refine ⟨by rw [GetPaginated_session, h25]; rfl, hev2, ?_⟩
    rw [hev2, List.length_take, List.length_drop, orderRows_length, h25]
    rfl

/-- C3 (amended), on the table of 25 events with Page 2 and Size 10 and no filter: no
error, totalCount 25 and the events with ids 11 to 20. -/
theorem GetPaginated_page_contract_witness :
    (EventRepositoryImpl.GetPaginated (DB.session sampleEvents) []
      ⟨none, none, none, none, none, none, 2, 10, "", ""⟩).err = none ∧
    (EventRepositoryImpl.GetPaginated (DB.session sampleEvents) []
      ⟨none, none, none, none, none, none, 2, 10, "", ""⟩).totalCount = 25 ∧
    (EventRepositoryImpl.GetPaginated (DB.session sampleEvents) []
      ⟨none, none, none, none, none, none, 2, 10, "", ""⟩).events.map (fun e => e.ID)
      = [11, 12, 13, 14, 15, 16, 17, 18, 19, 20] := by
  obtain ⟨h1, -, -, -, -, h6, h7⟩ := GetPaginated_page_contract sampleEvents []
    ⟨none, none, none, none, none, none, 2, 10, "", ""⟩
  have h8 := h6 (by decide)
  obtain ⟨h9, -, -⟩ := h7 rfl rfl (by decide)
  refine ⟨h1, h9, ?_⟩
  rw [h8]
  decide

/-- C8 (as stated, refuted): no row has id 0, yet `GetPaginated` with the ID filter set
to 0 adds no condition and returns the whole table: one item and totalCount 1. -/
theorem GetPaginated_zero_id_filter_returns_all :
    (∀ e ∈ [(⟨1, "a", "", "", "", 1, 1⟩ : Event)], e.ID ≠ 0) ∧
    (EventRepositoryImpl.GetPaginated (DB.session [⟨1, "a", "", "", "", 1, 1⟩]) []
      ⟨some 0, none, none, none, none, none, 1, 10, "", ""⟩).events
      = [⟨1, "a", "", "", "", 1, 1⟩] ∧
    (EventRepositoryImpl.GetPaginated (DB.session [⟨1, "a", "", "", "", 1, 1⟩]) []
      ⟨some 0, none, none, none, none, none, 1, 10, "", ""⟩).totalCount = 1 := by
  decide

/-- C8 (amended): on a healthy session over a table in which no row has the id,
`GetByID` returns `gorm.ErrRecordNotFound` and leaves the target as it was, and when
the id is not 0 `GetPaginated` with the ID filter set to it returns no error, no items
and totalCount 0, whatever the other options are. -/
theorem absent_id_finds_nothing (rows events : List Event) (event : Event)
    (opts : EventQueryOptions) (id : Nat)
    (habsent : ∀ e ∈ rows, e.ID ≠ id) (hfilter : opts.ID = some id) :
    EventRepositoryImpl.GetByID (DB.session rows) event id
      = (some gorm.ErrRecordNotFound, event) ∧
    (id ≠ 0 →
      (EventRepositoryImpl.GetPaginated (DB.session rows) events opts).err = none ∧
      (EventRepositoryImpl.GetPaginated (DB.session rows) events opts).events = [] ∧
      (EventRepositoryImpl.GetPaginated (DB.session rows) events opts).totalCount = 0) := by
  constructor
  · have hF := (First_session_id rows event id).2.1 habsent
    simp [EventRepositoryImpl.GetByID, hF, errors_Is_self]
  · intro hid
    have hnil : rows.filter (matchesFilter opts) = [] := by
      simp only [List.filter_eq_nil_iff]
      intro e he
      have hne := habsent e he
      simp [matchesFilter, hfilter, hid, hne]
    have hord : orderRows (sortClauses opts) [] = [] :=
      List.eq_nil_of_length_eq_zero (orderRows_length _ _)
    rw [GetPaginated_session, hnil, hord]
    simp

/-- C8 (amended), on a table with ids 1 and 2 and the absent id 7. -/
theorem absent_id_finds_nothing_witness :
    EventRepositoryImpl.GetByID
        (DB.session [⟨1, "a", "", "", "", 1, 1⟩, ⟨2, "b", "", "", "", 1, 2⟩])
        ⟨0, "", "", "", "", 0, 0⟩ 7
      = (some gorm.ErrRecordNotFound, ⟨0, "", "", "", "", 0, 0⟩) ∧
    (EventRepositoryImpl.GetPaginated
        (DB.session [⟨1, "a", "", "", "", 1, 1⟩, ⟨2, "b", "", "", "", 1, 2⟩]) []
        ⟨some 7, none, none, none, none, none, 1, 10, "", ""⟩).events = [] ∧
    (EventRepositoryImpl.GetPaginated
        (DB.session [⟨1, "a", "", "", "", 1, 1⟩, ⟨2, "b", "", "", "", 1, 2⟩]) []
        ⟨some 7, none, none, none, none, none, 1, 10, "", ""⟩).totalCount = 0 := by
  obtain ⟨h1, h2⟩ := absent_id_finds_nothing
    [⟨1, "a", "", "", "", 1, 1⟩, ⟨2, "b", "", "", "", 1, 2⟩] [] ⟨0, "", "", "", "", 0, 0⟩
    ⟨some 7, none, none, none, none, none, 1, 10, "", ""⟩ 7 (by decide) rfl
  exact ⟨h1, (h2 (by decide)).2.1, (h2 (by decide)).2.2⟩

/-- C5 (as stated, refuted): the condition built for Name = "_" holds for an event
named "a" (in `LIKE` the `_` stands for any one character), although "a" does not
contain "_"; likewise for Description = "%" and an empty description. -/
theorem substring_filter_wildcards_match :
    (EventRepositoryImpl.buildPaginatedQuery (DB.session [])
        ⟨none, some "_", none, none, none, none, 1, 10, "", ""⟩).wheres.all
      (fun k => evalCond k ⟨1, "a", "", "", "", 1, 1⟩) = true ∧
    ¬ ((strings.ToLower "_").data <:+: (strings.ToLower "a").data) ∧
    (EventRepositoryImpl.buildPaginatedQuery (DB.session [])
        ⟨none, none, some "%", none, none, none, 1, 10, "", ""⟩).wheres.all
      (fun k => evalCond k ⟨1, "a", "", "", "", 1, 1⟩) = true ∧
    ¬ ((strings.ToLower "%").data <:+: (strings.ToLower "").data) := by
  decide

/-- C5 (amended): for a filter string that is not empty and has none of the `LIKE`
characters `%`, `_` and backslash, an event satisfies the condition built for the Name
filter exactly when its lower-cased name contains the lower-cased string, and the
condition built for the Description filter exactly when its lower-cased description
does. -/
theorem substring_filter_contains (s : String) (e : Event) (hne : s ≠ "")
    (hlit : ∀ c ∈ s.data, likeMeta c = false) :
    ((EventRepositoryImpl.buildPaginatedQuery (DB.session [])
        ⟨none, some s, none, none, none, none, 1, 10, "", ""⟩).wheres
      = [⟨"LOWER(name) LIKE LOWER(?)", .str ("%" ++ s ++ "%")⟩]) ∧
    (evalCond ⟨"LOWER(name) LIKE LOWER(?)", .str ("%" ++ s ++ "%")⟩ e = true ↔
      (strings.ToLower s).data <:+: (strings.ToLower e.Name).data) ∧
    ((EventRepositoryImpl.buildPaginatedQuery (DB.session [])
        ⟨none, none, some s, none, none, none, 1, 10, "", ""⟩).wheres
      = [⟨"LOWER(description) LIKE LOWER(?)", .str ("%" ++ s ++ "%")⟩]) ∧
    (evalCond ⟨"LOWER(description) LIKE LOWER(?)", .str ("%" ++ s ++ "%")⟩ e = true ↔
      (strings.ToLower s).data <:+: (strings.ToLower e.Description).data) := by
  refine ⟨?_, ?_, ?_, ?_⟩
  · rw [buildPaginatedQuery_eq]
    simp [filterConds, DB.session, hne]
  · rw [evalCond_name]
    exact lowerLike_contains e.Name s hlit
  · rw [buildPaginatedQuery_eq]
    simp [filterConds, DB.session, hne]
  · rw [evalCond_description]
    exact lowerLike_contains e.Description s hlit

/-- C5 (amended), at the filter "EVE" and an event named "Annual Event" and described
as "Every year": both conditions hold. -/
theorem substring_filter_contains_witness :
    evalCond ⟨"LOWER(name) LIKE LOWER(?)", .str ("%" ++ "EVE" ++ "%")⟩
      ⟨1, "Annual Event", "Every year", "", "", 1, 1⟩ = true ∧
    (strings.ToLower "EVE").data <:+: (strings.ToLower "Annual Event").data ∧
    evalCond ⟨"LOWER(description) LIKE LOWER(?)", .str ("%" ++ "EVE" ++ "%")⟩
      ⟨1, "Annual Event", "Every year", "", "", 1, 1⟩ = true := by
  obtain ⟨-, h2, -, h4⟩ := substring_filter_contains "EVE"
    ⟨1, "Annual Event", "Every year", "", "", 1, 1⟩ (by decide) (by decide)
  have hn : (strings.ToLower "EVE").data <:+: (strings.ToLower "Annual Event").data := by
    decide
  have hd : (strings.ToLower "EVE").data <:+: (strings.ToLower "Every year").data := by
    decide
  exact ⟨h2.2 hn, hn, h4.2 hd⟩

end Backend
